import Mathlib

/-!
Shallow embedding of `datadog/data_source_datadog_service_level_objective.go`
from the terraform-provider-datadog repository: the schema declaration
`dataSourceDatadogServiceLevelObjective` and the lookup function
`dataSourceServiceLevelObjectiveRead`.

The Datadog API client types (`ServiceLevelObjective`, `SLOThreshold`,
`ServiceLevelObjectiveQuery`, the `ListSLOs` request builder) are embedded
following the generated-client convention: optional fields are pointers, the
`GetX` accessor returns the zero value when the field is unset, and the
`GetXOk` accessor exposes the presence flag.  Go `float64` values are only
ever copied by this file, never computed with, so they are carried as `Rat`.
-/

namespace DatadogSLO

/-- Carrier for Go `float64` values; the embedded code only copies them. -/
abbrev Float64 := Rat

/-- `ServiceLevelObjectiveQuery` from the Datadog v1 client: both fields are
required strings. -/
structure ServiceLevelObjectiveQuery where
  numerator : String
  denominator : String
  deriving DecidableEq, Repr, Inhabited

def ServiceLevelObjectiveQuery.GetNumerator (q : ServiceLevelObjectiveQuery) : String :=
  q.numerator

def ServiceLevelObjectiveQuery.GetDenominator (q : ServiceLevelObjectiveQuery) : String :=
  q.denominator

/-- `SLOThreshold` from the Datadog v1 client: `timeframe` and `target` are
required; `warning`, `targetDisplay`, `warningDisplay` are optional pointer
fields with presence flags. -/
structure SLOThreshold where
  timeframe : String
  target : Float64
  warning : Option Float64
  targetDisplay : Option String
  warningDisplay : Option String
  deriving DecidableEq, Repr, Inhabited

def SLOThreshold.GetTimeframe (t : SLOThreshold) : String := t.timeframe

def SLOThreshold.GetTarget (t : SLOThreshold) : Float64 := t.target

/-- `GetWarningOk`: value together with the presence flag, as an `Option`. -/
def SLOThreshold.GetWarningOk (t : SLOThreshold) : Option Float64 := t.warning

def SLOThreshold.GetTargetDisplayOk (t : SLOThreshold) : Option String := t.targetDisplay

def SLOThreshold.GetWarningDisplayOk (t : SLOThreshold) : Option String := t.warningDisplay

/-- `ServiceLevelObjective` from the Datadog v1 client, restricted to the
fields this data source reads.  `name`, `thresholds` and `sloType` are
required fields of the client struct; the rest are optional (pointer or
nullable) fields. -/
structure ServiceLevelObjective where
  id : Option String
  name : String
  description : Option String
  tags : Option (List String)
  sloType : String
  thresholds : List SLOThreshold
  monitorIds : Option (List Int)
  groups : Option (List String)
  query : Option ServiceLevelObjectiveQuery
  deriving DecidableEq, Repr, Inhabited

/-- `SLOTYPE_MONITOR` constant of the client (`SLOType` is a string type). -/
def SLOTYPE_MONITOR : String := "monitor"

/-- `SLOTYPE_METRIC` constant of the client. -/
def SLOTYPE_METRIC : String := "metric"

def ServiceLevelObjective.GetId (o : ServiceLevelObjective) : String := o.id.getD ""

def ServiceLevelObjective.GetName (o : ServiceLevelObjective) : String := o.name

def ServiceLevelObjective.GetDescription (o : ServiceLevelObjective) : String :=
  o.description.getD ""

def ServiceLevelObjective.GetTags (o : ServiceLevelObjective) : List String :=
  o.tags.getD []

def ServiceLevelObjective.GetType (o : ServiceLevelObjective) : String := o.sloType

def ServiceLevelObjective.GetThresholds (o : ServiceLevelObjective) : List SLOThreshold :=
  o.thresholds

def ServiceLevelObjective.GetMonitorIds (o : ServiceLevelObjective) : List Int :=
  o.monitorIds.getD []

def ServiceLevelObjective.GetGroups (o : ServiceLevelObjective) : List String :=
  o.groups.getD []

/-- `GetQuery` returns the zero-value query struct when the pointer is nil. -/
def ServiceLevelObjective.GetQuery (o : ServiceLevelObjective) : ServiceLevelObjectiveQuery :=
  o.query.getD { numerator := "", denominator := "" }

/-- `SLOListResponse` from the client; `GetData` returns the (optional) data
slice, defaulting to the empty slice. -/
structure SLOListResponse where
  data : Option (List ServiceLevelObjective)
  deriving DecidableEq, Repr, Inhabited

def SLOListResponse.GetData (r : SLOListResponse) : List ServiceLevelObjective :=
  r.data.getD []

/-- The `ListSLOs` request builder: three optional query parameters, absent
until the corresponding builder method is called. -/
structure ListSLOsRequest where
  query : Option String
  tagsQuery : Option String
  metricsQuery : Option String
  deriving DecidableEq, Repr, Inhabited

/-- `ServiceLevelObjectivesApi.ListSLOs(authV1)`: the fresh request. -/
def ListSLOs : ListSLOsRequest :=
  { query := none, tagsQuery := none, metricsQuery := none }

def ListSLOsRequest.Query (r : ListSLOsRequest) (v : String) : ListSLOsRequest :=
  { r with query := some v }

def ListSLOsRequest.TagsQuery (r : ListSLOsRequest) (v : String) : ListSLOsRequest :=
  { r with tagsQuery := some v }

def ListSLOsRequest.MetricsQuery (r : ListSLOsRequest) (v : String) : ListSLOsRequest :=
  { r with metricsQuery := some v }

/-- The threshold entry map built by the read loop: `timeframe` and `target`
are always inserted, the other three keys only when the presence flag of the
source field is set. -/
structure ThresholdOut where
  timeframe : String
  target : Float64
  warning : Option Float64
  target_display : Option String
  warning_display : Option String
  deriving DecidableEq, Repr, Inhabited

/-- Typed values written into the terraform attribute store by this read. -/
inductive AttrVal where
  | str : String → AttrVal
  | strList : List String → AttrVal
  | intList : List Int → AttrVal
  | thresholdList : List ThresholdOut → AttrVal
  | queryList : List ServiceLevelObjectiveQuery → AttrVal
  deriving DecidableEq, Repr

/-- Errors the read can return: a translated client error (with its context
tag), a `fmt.Errorf` message, or an error from a `d.Set` call (identified by
the key being set). -/
inductive ReadError where
  | translatedClientError : String → String → ReadError
  | errorf : String → ReadError
  | setError : String → ReadError
  deriving DecidableEq, Repr

/-- Modelled from the spec: `utils.TranslateClientError` (in this repository's
`internal/utils` package, not under `src/`) produces an error that preserves
the underlying diagnostic message and is tagged with the given context
string. -/
def TranslateClientError (err : String) (msg : String) : ReadError :=
  ReadError.translatedClientError err msg

/-- The caller-owned output attribute store: the ordered list of `d.Set`
writes plus the resource identifier set by `d.SetId`. -/
structure AttrStore where
  writes : List (String × AttrVal)
  id : Option String
  deriving DecidableEq, Repr, Inhabited

/-- The terraform `ResourceData`: the three optional filter inputs and the
output attribute store. -/
structure ResourceData where
  name_query : Option String
  tags_filter : Option String
  metrics_query : Option String
  store : AttrStore
  deriving DecidableEq, Repr, Inhabited

/-- Modelled from the spec: `d.GetOk` of the terraform attribute store (not
under `src/`) is a typed get with a presence flag; absence of the optional
input means no constraint. -/
def dGetOk (v : Option String) : String × Bool :=
  (v.getD "", v.isSome)

/-- The external collaborators of the read: the authenticated `ListSLOs` call
(which may fail with a client error message) and the attribute store's
acceptance of each `d.Set` write (`d.Set` returns an error where `setOk` is
false). -/
structure ProviderEnv where
  listSLOs : ListSLOsRequest → Except String SLOListResponse
  setOk : String → AttrVal → Bool

/-- `d.Set(key, value)`: appends the write on success, returns an error (and
leaves the store unchanged) when the store rejects the write. -/
def dSet (env : ProviderEnv) (st : AttrStore) (k : String) (v : AttrVal) :
    AttrStore × Option ReadError :=
  if env.setOk k v then ({ st with writes := st.writes ++ [(k, v)] }, none)
  else (st, some (ReadError.setError k))

/-- `d.SetId`: sets the resource identifier; never fails. -/
def dSetId (st : AttrStore) (i : String) : AttrStore :=
  { st with id := some i }

/-- Sequencing of the Go `if err := d.Set(...); err != nil { return err }`
pattern: stop at the first error, keeping the store reached so far. -/
def andThen (r : AttrStore × Option ReadError)
    (f : AttrStore → AttrStore × Option ReadError) : AttrStore × Option ReadError :=
  match r with
  | (st, some e) => (st, some e)
  | (st, none) => f st

/-- Lines 148-157: build the `ListSLOs` request, attaching each of
`name_query`, `tags_filter`, `metrics_query` only when `GetOk` reports it
present. -/
def buildListSLOsRequest (d : ResourceData) : ListSLOsRequest :=
  let req := ListSLOs
  let req := match dGetOk d.name_query with
    | (v, true) => req.Query v
    | (_, false) => req
  let req := match dGetOk d.tags_filter with
    | (v, true) => req.TagsQuery v
    | (_, false) => req
  match dGetOk d.metrics_query with
  | (v, true) => req.MetricsQuery v
  | (_, false) => req

/-- One iteration of the threshold loop (lines 176-188): always copy
timeframe and target, copy the other three only when present. -/
def thresholdOut (threshold : SLOThreshold) : ThresholdOut :=
  { timeframe := threshold.GetTimeframe
    target := threshold.GetTarget
    warning := threshold.GetWarningOk
    target_display := threshold.GetTargetDisplayOk
    warning_display := threshold.GetWarningDisplayOk }

/-- Lines 174-190: the thresholds slice built by appending `thresholdOut` of
each source threshold in order. -/
def sloThresholds (slo : ServiceLevelObjective) : List ThresholdOut :=
  slo.GetThresholds.map thresholdOut

/-- The error message for more than one result (line 166). -/
def moreThanOneResultMsg : String :=
  "your query returned more than one result, please try a more specific search criteria"

/-- The error message for zero results (line 169). -/
def noResultMsg : String :=
  "your query returned no result, please try a less specific search criteria"

/-- Lines 197-235: the field assignments performed for the single matched
SLO, each aborting the read on error, followed by `d.SetId`. -/
def assignSLOFields (env : ProviderEnv) (st : AttrStore) (slo : ServiceLevelObjective) :
    AttrStore × Option ReadError :=
  andThen (dSet env st "name" (AttrVal.str slo.GetName)) fun st =>
  andThen (dSet env st "description" (AttrVal.str slo.GetDescription)) fun st =>
  andThen (dSet env st "type" (AttrVal.str slo.GetType)) fun st =>
  andThen (dSet env st "tags" (AttrVal.strList slo.GetTags)) fun st =>
  andThen (dSet env st "thresholds" (AttrVal.thresholdList (sloThresholds slo))) fun st =>
  andThen
    (if slo.GetType = SLOTYPE_MONITOR then
      -- monitor type
      andThen
        (if slo.GetMonitorIds.length > 0 then
          dSet env st "monitor_ids" (AttrVal.intList slo.GetMonitorIds)
        else (st, none)) fun st =>
      dSet env st "groups" (AttrVal.strList slo.GetGroups)
    else
      -- metric type
      let q := slo.GetQuery
      dSet env st "query"
        (AttrVal.queryList [{ numerator := q.GetNumerator, denominator := q.GetDenominator }]))
    fun st =>
  (dSetId st slo.GetId, none)

/-- `dataSourceServiceLevelObjectiveRead` (lines 143-236): build the filtered
request, execute it, enforce the single-result invariant, then copy the
matched SLO's fields into the attribute store.  The result is the final
state of the caller-owned store together with the error, if any. -/
def dataSourceServiceLevelObjectiveRead (env : ProviderEnv) (d : ResourceData) :
    AttrStore × Option ReadError :=
  let req := buildListSLOsRequest d
  match env.listSLOs req with
  | Except.error err =>
      (d.store, some (TranslateClientError err "error querying monitors"))
  | Except.ok sloResponse =>
      let slos := sloResponse.GetData
      if slos.length > 1 then (d.store, some (ReadError.errorf moreThanOneResultMsg))
      else
        match slos with
        | [] => (d.store, some (ReadError.errorf noResultMsg))
        | slo :: _ => assignSLOFields env d.store slo

/-! ## The schema declaration (`dataSourceDatadogServiceLevelObjective`, lines 11-141)

Only the structural metadata of each schema entry is embedded (value type,
`Optional`, `Computed`, `Removed`, and the nested `Elem`); the documentation
strings and the `MaxItems`/`MinItems` markers carry no behaviour used here. -/

/-- The terraform value types used in this schema. -/
inductive SchemaValueType where
  | typeString
  | typeFloat
  | typeBool
  | typeInt
  | typeList
  | typeSet
  deriving DecidableEq, Repr

/-- A schema node: either a field (with its metadata and optional `Elem`), or
an `Elem` that is itself a bare schema or a nested resource. -/
inductive SchemaNode where
  | field (typ : SchemaValueType) (optionalFlag : Bool) (computed : Bool)
      (removed : Option String) (elem : Option SchemaNode) : SchemaNode
  | elemSchema (typ : SchemaValueType) : SchemaNode
  | elemResource (fields : List (String × SchemaNode)) : SchemaNode

/-- Whether a schema field is declared `Computed`. -/
def SchemaNode.isComputed : SchemaNode → Bool
  | .field _ _ c _ _ => c
  | _ => false

/-- The `Removed` marker of a schema field, when present. -/
def SchemaNode.removedMsg : SchemaNode → Option String
  | .field _ _ _ r _ => r
  | _ => none

/-- The nested resource schema of the `thresholds` list elements. -/
def thresholdsElem : SchemaNode :=
  SchemaNode.elemResource
    [ ("timeframe", SchemaNode.field .typeString false true none none)
    , ("target", SchemaNode.field .typeFloat false true none none)
    , ("target_display", SchemaNode.field .typeString false true none none)
    , ("warning", SchemaNode.field .typeFloat false true none none)
    , ("warning_display", SchemaNode.field .typeString false true none none) ]

/-- The nested resource schema of the `query` list elements. -/
def queryElem : SchemaNode :=
  SchemaNode.elemResource
    [ ("numerator", SchemaNode.field .typeString false true none none)
    , ("denominator", SchemaNode.field .typeString false true none none) ]

/-- The schema map of `dataSourceDatadogServiceLevelObjective`, in source
order. -/
def dataSourceDatadogServiceLevelObjectiveSchema : List (String × SchemaNode) :=
  [ ("name_query", SchemaNode.field .typeString true false none none)
  , ("tags_filter", SchemaNode.field .typeString true false none
      (some (SchemaNode.elemSchema .typeString)))
  , ("metrics_query", SchemaNode.field .typeString true false none
      (some (SchemaNode.elemSchema .typeString)))
  , ("name", SchemaNode.field .typeString false true none none)
  , ("description", SchemaNode.field .typeString false true none none)
  , ("tags", SchemaNode.field .typeSet false true none
      (some (SchemaNode.elemSchema .typeString)))
  , ("thresholds", SchemaNode.field .typeList false true none (some thresholdsElem))
  , ("type", SchemaNode.field .typeString false true none none)
  , ("force_delete", SchemaNode.field .typeBool false true none none)
  , ("query", SchemaNode.field .typeList false true none (some queryElem))
  , ("monitor_ids", SchemaNode.field .typeSet false true none
      (some (SchemaNode.elemSchema .typeInt)))
  , ("monitor_search", SchemaNode.field .typeString false true
      (some "Feature is not yet supported") none)
  , ("groups", SchemaNode.field .typeSet false true none
      (some (SchemaNode.elemSchema .typeString)))
  , ("validate", SchemaNode.field .typeBool false true none none) ]

/-- Look a field up in a schema map by key. -/
def lookupSchemaField (fields : List (String × SchemaNode)) (key : String) :
    Option SchemaNode :=
  (fields.find? (fun p => p.1 = key)).map Prod.snd

/-- Modelled from the spec: the schema engine (the terraform-plugin-sdk, not
under `src/`) rejects with a hard error any configuration that supplies a
value for a field whose schema carries a `Removed` marker. -/
def removedFieldRejected (fields : List (String × SchemaNode)) (key : String)
    (supplied : Bool) : Bool :=
  supplied &&
    match lookupSchemaField fields key with
    | some f => f.removedMsg.isSome
    | none => false

/-! ## The write plan and its relation to `assignSLOFields`

`successWrites slo` is the ordered list of `d.Set` writes the read attempts
for a matched SLO; `applyWrites` performs such a list sequentially, stopping
at the first store rejection.  `assignSLOFields_eq_applyWrites` proves that
the literal assignment chain equals this plan execution followed by
`d.SetId`. -/

/-- The ordered `(key, value)` writes attempted for a matched SLO. -/
def successWrites (slo : ServiceLevelObjective) : List (String × AttrVal) :=
  ("name", AttrVal.str slo.GetName) ::
  ("description", AttrVal.str slo.GetDescription) ::
  ("type", AttrVal.str slo.GetType) ::
  ("tags", AttrVal.strList slo.GetTags) ::
  ("thresholds", AttrVal.thresholdList (sloThresholds slo)) ::
  (if slo.GetType = SLOTYPE_MONITOR then
    (if slo.GetMonitorIds.length > 0 then
      [("monitor_ids", AttrVal.intList slo.GetMonitorIds)]
    else []) ++
    [("groups", AttrVal.strList slo.GetGroups)]
  else
    let q := slo.GetQuery
    [("query",
      AttrVal.queryList [{ numerator := q.GetNumerator, denominator := q.GetDenominator }])])

/-- Apply a list of writes in order, stopping at the first rejection. -/
def applyWrites (env : ProviderEnv) (st : AttrStore) :
    List (String × AttrVal) → AttrStore × Option ReadError
  | [] => (st, none)
  | (k, v) :: rest => andThen (dSet env st k v) fun st => applyWrites env st rest

theorem andThen_ok (st : AttrStore) (f : AttrStore → AttrStore × Option ReadError) :
    andThen (st, none) f = f st := rfl

theorem andThen_err (st : AttrStore) (e : ReadError)
    (f : AttrStore → AttrStore × Option ReadError) :
    andThen (st, some e) f = (st, some e) := rfl

theorem andThen_assoc (r : AttrStore × Option ReadError)
    (f g : AttrStore → AttrStore × Option ReadError) :
    andThen (andThen r f) g = andThen r (fun st => andThen (f st) g) := by
  obtain ⟨st, e⟩ := r
  cases e <;> rfl

theorem andThen_id (r : AttrStore × Option ReadError) :
    andThen r (fun st => (st, none)) = r := by
  obtain ⟨st, e⟩ := r
  cases e <;> rfl

theorem applyWrites_append (env : ProviderEnv) (st : AttrStore)
    (l₁ l₂ : List (String × AttrVal)) :
    applyWrites env st (l₁ ++ l₂) =
      andThen (applyWrites env st l₁) (fun st => applyWrites env st l₂) := by
  induction l₁ generalizing st with
  | nil => simp [applyWrites, andThen_ok]
  | cons p rest ih =>
      obtain ⟨k, v⟩ := p
      simp only [List.cons_append, applyWrites, andThen_assoc]
      congr 1
      funext st'
      exact ih st'

theorem assignSLOFields_eq_applyWrites (env : ProviderEnv) (st : AttrStore)
    (slo : ServiceLevelObjective) :
    assignSLOFields env st slo =
      andThen (applyWrites env st (successWrites slo))
        (fun st => (dSetId st slo.GetId, none)) := by
  simp only [assignSLOFields, successWrites, applyWrites, andThen_assoc]
  congr 1
  funext st₁
  congr 1
  funext st₂
  congr 1
  funext st₃
  congr 1
  funext st₄
  congr 1
  funext st₅
  by_cases htype : slo.GetType = SLOTYPE_MONITOR
  · simp only [htype, if_true, applyWrites_append, andThen_assoc]
    by_cases hmon : slo.GetMonitorIds.length > 0
    · simp only [hmon, if_true, applyWrites, andThen_assoc, andThen_ok, andThen_id]
    · simp only [hmon, if_false, applyWrites, andThen_assoc, andThen_ok, andThen_id]
  · simp only [htype, if_false, applyWrites, andThen_assoc, andThen_ok, andThen_id]

theorem applyWrites_of_all_ok (env : ProviderEnv) (st : AttrStore)
    (plan : List (String × AttrVal)) (h : ∀ p ∈ plan, env.setOk p.1 p.2 = true) :
    applyWrites env st plan = ({ st with writes := st.writes ++ plan }, none) := by
  induction plan generalizing st with
  | nil => simp [applyWrites]
  | cons p rest ih =>
      obtain ⟨k, v⟩ := p
      have hk : env.setOk k v = true := h (k, v) (by simp)
      rw [applyWrites, dSet, if_pos hk, andThen_ok,
        ih _ (fun q hq => h q (List.mem_cons_of_mem _ hq))]
      simp

theorem applyWrites_of_fail (env : ProviderEnv) (st : AttrStore)
    (pre : List (String × AttrVal)) (k : String) (v : AttrVal)
    (post : List (String × AttrVal))
    (hpre : ∀ p ∈ pre, env.setOk p.1 p.2 = true) (hfail : env.setOk k v = false) :
    applyWrites env st (pre ++ (k, v) :: post) =
      ({ st with writes := st.writes ++ pre }, some (ReadError.setError k)) := by
  induction pre generalizing st with
  | nil =>
      rw [List.nil_append, applyWrites, dSet, if_neg (by simp [hfail]), andThen_err]
      simp
  | cons p rest ih =>
      obtain ⟨k', v'⟩ := p
      have hk : env.setOk k' v' = true := hpre (k', v') (by simp)
      rw [List.cons_append, applyWrites, dSet, if_pos hk, andThen_ok,
        ih _ (fun q hq => hpre q (List.mem_cons_of_mem _ hq))]
      simp

/-! ## Unfolding lemmas for the read's four exits -/

theorem read_of_clientError (env : ProviderEnv) (d : ResourceData) (err : String)
    (h : env.listSLOs (buildListSLOsRequest d) = Except.error err) :
    dataSourceServiceLevelObjectiveRead env d =
      (d.store, some (TranslateClientError err "error querying monitors")) := by
  simp only [dataSourceServiceLevelObjectiveRead, h]

theorem read_of_manyResults (env : ProviderEnv) (d : ResourceData)
    (resp : SLOListResponse)
    (h : env.listSLOs (buildListSLOsRequest d) = Except.ok resp)
    (hlen : resp.GetData.length > 1) :
    dataSourceServiceLevelObjectiveRead env d =
      (d.store, some (ReadError.errorf moreThanOneResultMsg)) := by
  simp only [dataSourceServiceLevelObjectiveRead, h]
  simp [hlen]

theorem read_of_noResult (env : ProviderEnv) (d : ResourceData)
    (resp : SLOListResponse)
    (h : env.listSLOs (buildListSLOsRequest d) = Except.ok resp)
    (hdata : resp.GetData = []) :
    dataSourceServiceLevelObjectiveRead env d =
      (d.store, some (ReadError.errorf noResultMsg)) := by
  simp only [dataSourceServiceLevelObjectiveRead, h]
  simp [hdata]

theorem read_of_singleResult (env : ProviderEnv) (d : ResourceData)
    (resp : SLOListResponse) (slo : ServiceLevelObjective)
    (h : env.listSLOs (buildListSLOsRequest d) = Except.ok resp)
    (hdata : resp.GetData = [slo]) :
    dataSourceServiceLevelObjectiveRead env d = assignSLOFields env d.store slo := by
  simp only [dataSourceServiceLevelObjectiveRead, h]
  simp [hdata]

theorem read_success_eq (env : ProviderEnv) (d : ResourceData)
    (resp : SLOListResponse) (slo : ServiceLevelObjective)
    (h : env.listSLOs (buildListSLOsRequest d) = Except.ok resp)
    (hdata : resp.GetData = [slo]) (hok : ∀ k v, env.setOk k v = true) :
    dataSourceServiceLevelObjectiveRead env d =
      ({ writes := d.store.writes ++ successWrites slo, id := some slo.GetId }, none) := by
  rw [read_of_singleResult env d resp slo h hdata, assignSLOFields_eq_applyWrites,
    applyWrites_of_all_ok env d.store _ (fun p _ => hok p.1 p.2)]
  rfl

/-! ## Concrete fixtures used by the witnesses and counterexample -/

/-- A monitor-type SLO with two monitor ids, one group and one minimal
threshold. -/
def sloMonitorExample : ServiceLevelObjective :=
  { id := some "slo-123"
    name := "checkout latency"
    description := some "p99 latency"
    tags := some ["env:prod"]
    sloType := "monitor"
    thresholds := [{ timeframe := "7d", target := 99, warning := none,
                     targetDisplay := none, warningDisplay := none }]
    monitorIds := some [123, 456]
    groups := some ["env:prod"]
    query := none }

/-- A metric-type SLO with a query and a threshold carrying some optional
fields. -/
def sloMetricExample : ServiceLevelObjective :=
  { id := some "slo-metric-1"
    name := "metric slo"
    description := none
    tags := none
    sloType := "metric"
    thresholds := [{ timeframe := "30d", target := 98, warning := some 99,
                     targetDisplay := some "98.00", warningDisplay := none }]
    monitorIds := none
    groups := none
    query := some { numerator := "sum:good", denominator := "sum:total" } }

/-- A metric-type SLO whose query sub-object is absent in the source. -/
def sloMetricNoQueryExample : ServiceLevelObjective :=
  { id := some "slo-metric-2"
    name := "metric slo without query"
    description := none
    tags := none
    sloType := "metric"
    thresholds := []
    monitorIds := none
    groups := none
    query := none }

/-- An environment whose list call always returns the given SLOs and whose
store accepts every write. -/
def envOk (slos : List ServiceLevelObjective) : ProviderEnv :=
  { listSLOs := fun _ => Except.ok { data := some slos }
    setOk := fun _ _ => true }

/-- An environment whose list call fails with a client error. -/
def envClientError : ProviderEnv :=
  { listSLOs := fun _ => Except.error "403 Forbidden"
    setOk := fun _ _ => true }

/-- An environment whose store rejects exactly the `description` write. -/
def envFailDescription (slos : List ServiceLevelObjective) : ProviderEnv :=
  { listSLOs := fun _ => Except.ok { data := some slos }
    setOk := fun k _ => !(k == "description") }

/-- A resource data with one filter supplied and an empty output store. -/
def dExample : ResourceData :=
  { name_query := some "checkout latency"
    tags_filter := none
    metrics_query := none
    store := { writes := [], id := none } }

/-! ## The claims -/

/-- Claim C1: the lookup succeeds only when the filtered list query returns
exactly one SLO: more than one result returns the "more specific search"
error, zero results returns the "less specific search" error, and only with
exactly one result does the read proceed to populate the outputs. -/
theorem C1_exactly_one_result_invariant (env : ProviderEnv) (d : ResourceData)
    (resp : SLOListResponse)
    (h : env.listSLOs (buildListSLOsRequest d) = Except.ok resp) :
    (resp.GetData.length > 1 →
      dataSourceServiceLevelObjectiveRead env d =
        (d.store, some (ReadError.errorf moreThanOneResultMsg))) ∧
    (resp.GetData.length = 0 →
      dataSourceServiceLevelObjectiveRead env d =
        (d.store, some (ReadError.errorf noResultMsg))) ∧
    (∀ slo, resp.GetData = [slo] →
      dataSourceServiceLevelObjectiveRead env d = assignSLOFields env d.store slo) := by
  refine ⟨fun hlen => read_of_manyResults env d resp h hlen,
    fun hlen => read_of_noResult env d resp h (List.length_eq_zero.mp hlen),
    fun slo hdata => read_of_singleResult env d resp slo h hdata⟩

theorem C1_witness :
    dataSourceServiceLevelObjectiveRead (envOk [sloMonitorExample]) dExample =
      assignSLOFields (envOk [sloMonitorExample]) dExample.store sloMonitorExample :=
  (C1_exactly_one_result_invariant (envOk [sloMonitorExample]) dExample
    { data := some [sloMonitorExample] } rfl).2.2 sloMonitorExample rfl

/-- Claim C5: on the zero-result and more-than-one-result failure exits the
read returns the corresponding error and the output attribute store — its
writes and its identifier — is exactly the store it started with. -/
theorem C5_failure_exits_leave_store_unchanged (env : ProviderEnv)
    (d : ResourceData) (resp : SLOListResponse)
    (h : env.listSLOs (buildListSLOsRequest d) = Except.ok resp) :
    (resp.GetData.length = 0 →
      dataSourceServiceLevelObjectiveRead env d =
        (d.store, some (ReadError.errorf noResultMsg))) ∧
    (resp.GetData.length > 1 →
      dataSourceServiceLevelObjectiveRead env d =
        (d.store, some (ReadError.errorf moreThanOneResultMsg))) := by
  exact ⟨fun hlen => read_of_noResult env d resp h (List.length_eq_zero.mp hlen),
    fun hlen => read_of_manyResults env d resp h hlen⟩

theorem C5_witness :
    dataSourceServiceLevelObjectiveRead (envOk []) dExample =
      (dExample.store, some (ReadError.errorf noResultMsg)) ∧
    dataSourceServiceLevelObjectiveRead (envOk [sloMonitorExample, sloMetricExample])
        dExample =
      (dExample.store, some (ReadError.errorf moreThanOneResultMsg)) :=
  ⟨(C5_failure_exits_leave_store_unchanged (envOk []) dExample
      { data := some [] } rfl).1 rfl,
   (C5_failure_exits_leave_store_unchanged (envOk [sloMonitorExample, sloMetricExample])
      dExample { data := some [sloMonitorExample, sloMetricExample] } rfl).2
      (by decide)⟩

/-- Claim C6: each of the three filter inputs is attached to the list request
exactly as supplied — the request's query parameter equals `name_query`, its
tags parameter equals `tags_filter`, and its metrics parameter equals
`metrics_query` — so the three are independent and any subset of them may be
attached, all on the one request the read sends. -/
theorem C6_filters_attached_iff_supplied (d : ResourceData) :
    (buildListSLOsRequest d).query = d.name_query ∧
    (buildListSLOsRequest d).tagsQuery = d.tags_filter ∧
    (buildListSLOsRequest d).metricsQuery = d.metrics_query := by
  obtain ⟨nq, tf, mq, st⟩ := d
  refine ⟨?_, ?_, ?_⟩ <;>
    cases nq <;> cases tf <;> cases mq <;>
      simp [buildListSLOsRequest, dGetOk, ListSLOs, ListSLOsRequest.Query,
        ListSLOsRequest.TagsQuery, ListSLOsRequest.MetricsQuery]

/-- Claim C7: when the list call fails, the read returns the translated error
carrying the context string "error querying monitors" and the underlying
error, and the store is exactly the store it started with (no result
inspection, no output assignment). -/
theorem C7_client_error_translated (env : ProviderEnv) (d : ResourceData)
    (err : String)
    (h : env.listSLOs (buildListSLOsRequest d) = Except.error err) :
    dataSourceServiceLevelObjectiveRead env d =
      (d.store, some (ReadError.translatedClientError err "error querying monitors")) :=
  read_of_clientError env d err h

theorem C7_witness :
    dataSourceServiceLevelObjectiveRead envClientError dExample =
      (dExample.store,
        some (ReadError.translatedClientError "403 Forbidden" "error querying monitors")) :=
  C7_client_error_translated envClientError dExample "403 Forbidden" rfl

/-- Claim C9: the schema marks `monitor_search` with a `Removed` message, and
(per the spec's description of the schema engine) a caller supplying the
field is hard-rejected while an absent field is not. -/
theorem C9_monitor_search_removed :
    (lookupSchemaField dataSourceDatadogServiceLevelObjectiveSchema
        "monitor_search").map SchemaNode.removedMsg =
      some (some "Feature is not yet supported") ∧
    removedFieldRejected dataSourceDatadogServiceLevelObjectiveSchema
      "monitor_search" true = true ∧
    removedFieldRejected dataSourceDatadogServiceLevelObjectiveSchema
      "monitor_search" false = false := by
  refine ⟨?_, ?_, ?_⟩ <;> rfl

/-- The keys of the writes attempted for a matched SLO, in order. -/
theorem successWrites_keys (slo : ServiceLevelObjective) :
    (successWrites slo).map Prod.fst =
      ["name", "description", "type", "tags", "thresholds"] ++
      (if slo.GetType = SLOTYPE_MONITOR then
        (if slo.GetMonitorIds.length > 0 then ["monitor_ids"] else []) ++ ["groups"]
      else ["query"]) := by
  by_cases htype : slo.GetType = SLOTYPE_MONITOR
  · by_cases hmon : slo.GetMonitorIds.length > 0 <;> simp [successWrites, htype, hmon]
  · simp [successWrites, htype]

/-- Claim C2, as stated, is false: on a successful read with no assignment
errors, the fields `force_delete` and `validate` — both declared `Computed`
in the schema — are never written. -/
theorem C2_counterexample :
    (dataSourceServiceLevelObjectiveRead (envOk [sloMonitorExample]) dExample).2 = none ∧
    (lookupSchemaField dataSourceDatadogServiceLevelObjectiveSchema
        "force_delete").map SchemaNode.isComputed = some true ∧
    (lookupSchemaField dataSourceDatadogServiceLevelObjectiveSchema
        "validate").map SchemaNode.isComputed = some true ∧
    ((dataSourceServiceLevelObjectiveRead (envOk [sloMonitorExample])
        dExample).1.writes.map Prod.fst).contains "force_delete" = false ∧
    ((dataSourceServiceLevelObjectiveRead (envOk [sloMonitorExample])
        dExample).1.writes.map Prod.fst).contains "validate" = false := by
  refine ⟨?_, ?_, ?_, ?_, ?_⟩ <;> rfl

/-- Claim C2 (amended): when the query returns exactly one SLO and no output
assignment errors, the read populates `name`, `description`, `type`, `tags`
and `thresholds`, plus the type-appropriate group of fields, and sets the
identifier to the matched SLO's identifier; the computed fields
`force_delete`, `validate` and `monitor_search` are never written. -/
theorem C2_populated_outputs (env : ProviderEnv) (d : ResourceData)
    (resp : SLOListResponse) (slo : ServiceLevelObjective)
    (h : env.listSLOs (buildListSLOsRequest d) = Except.ok resp)
    (hdata : resp.GetData = [slo]) (hok : ∀ k v, env.setOk k v = true) :
    dataSourceServiceLevelObjectiveRead env d =
      ({ writes := d.store.writes ++ successWrites slo, id := some slo.GetId }, none) ∧
    "name" ∈ (successWrites slo).map Prod.fst ∧
    "description" ∈ (successWrites slo).map Prod.fst ∧
    "type" ∈ (successWrites slo).map Prod.fst ∧
    "tags" ∈ (successWrites slo).map Prod.fst ∧
    "thresholds" ∈ (successWrites slo).map Prod.fst ∧
    (slo.GetType = SLOTYPE_MONITOR → "groups" ∈ (successWrites slo).map Prod.fst) ∧
    (slo.GetType ≠ SLOTYPE_MONITOR → "query" ∈ (successWrites slo).map Prod.fst) ∧
    "force_delete" ∉ (successWrites slo).map Prod.fst ∧
    "validate" ∉ (successWrites slo).map Prod.fst ∧
    "monitor_search" ∉ (successWrites slo).map Prod.fst := by
  refine ⟨read_success_eq env d resp slo h hdata hok, ?_⟩
  rw [successWrites_keys]
  by_cases htype : slo.GetType = SLOTYPE_MONITOR
  · by_cases hmon : slo.GetMonitorIds.length > 0 <;> simp [htype, hmon]
  · simp [htype]

theorem C2_witness :
    dataSourceServiceLevelObjectiveRead (envOk [sloMonitorExample]) dExample =
      ({ writes := dExample.store.writes ++ successWrites sloMonitorExample,
         id := some sloMonitorExample.GetId }, none) ∧
    "name" ∈ (successWrites sloMonitorExample).map Prod.fst ∧
    "description" ∈ (successWrites sloMonitorExample).map Prod.fst ∧
    "type" ∈ (successWrites sloMonitorExample).map Prod.fst ∧
    "tags" ∈ (successWrites sloMonitorExample).map Prod.fst ∧
    "thresholds" ∈ (successWrites sloMonitorExample).map Prod.fst ∧
    (sloMonitorExample.GetType = SLOTYPE_MONITOR →
      "groups" ∈ (successWrites sloMonitorExample).map Prod.fst) ∧
    (sloMonitorExample.GetType ≠ SLOTYPE_MONITOR →
      "query" ∈ (successWrites sloMonitorExample).map Prod.fst) ∧
    "force_delete" ∉ (successWrites sloMonitorExample).map Prod.fst ∧
    "validate" ∉ (successWrites sloMonitorExample).map Prod.fst ∧
    "monitor_search" ∉ (successWrites sloMonitorExample).map Prod.fst :=
  C2_populated_outputs (envOk [sloMonitorExample]) dExample
    { data := some [sloMonitorExample] } sloMonitorExample rfl rfl (fun _ _ => rfl)

/-- Claim C3: for a monitor-type SLO the read writes `monitor_ids` exactly
when the monitor id set is non-empty, always writes `groups` (even when
empty), and never writes `query`; for any other type it writes `query` as a
single-element list built from the query sub-object's numerator and
denominator, and writes neither `monitor_ids` nor `groups`. -/
theorem C3_type_branch (env : ProviderEnv) (d : ResourceData)
    (resp : SLOListResponse) (slo : ServiceLevelObjective)
    (h : env.listSLOs (buildListSLOsRequest d) = Except.ok resp)
    (hdata : resp.GetData = [slo]) (hok : ∀ k v, env.setOk k v = true) :
    dataSourceServiceLevelObjectiveRead env d =
      ({ writes := d.store.writes ++ successWrites slo, id := some slo.GetId }, none) ∧
    (slo.GetType = SLOTYPE_MONITOR →
      (("monitor_ids", AttrVal.intList slo.GetMonitorIds) ∈ successWrites slo ↔
        slo.GetMonitorIds ≠ []) ∧
      ("groups", AttrVal.strList slo.GetGroups) ∈ successWrites slo ∧
      "query" ∉ (successWrites slo).map Prod.fst) ∧
    (slo.GetType ≠ SLOTYPE_MONITOR →
      ("query", AttrVal.queryList
        [{ numerator := slo.GetQuery.GetNumerator,
           denominator := slo.GetQuery.GetDenominator }]) ∈ successWrites slo ∧
      "monitor_ids" ∉ (successWrites slo).map Prod.fst ∧
      "groups" ∉ (successWrites slo).map Prod.fst) := by
  refine ⟨read_success_eq env d resp slo h hdata hok, fun htype => ⟨?_, ?_, ?_⟩,
    fun htype => ⟨?_, ?_, ?_⟩⟩
  · by_cases hmon : slo.GetMonitorIds.length > 0
    · have hne := List.length_pos.mp hmon
      simp [successWrites, htype, hmon, hne]
    · have hnil := List.length_eq_zero.mp (Nat.eq_zero_of_not_pos hmon)
      simp [successWrites, htype, hmon, hnil]
  · by_cases hmon : slo.GetMonitorIds.length > 0 <;> simp [successWrites, htype, hmon]
  · rw [successWrites_keys]
    by_cases hmon : slo.GetMonitorIds.length > 0 <;> simp [htype, hmon]
  · simp [successWrites, htype]
  · rw [successWrites_keys]
    simp [htype]
  · rw [successWrites_keys]
    simp [htype]

theorem C3_witness :
    (("monitor_ids", AttrVal.intList sloMonitorExample.GetMonitorIds) ∈
        successWrites sloMonitorExample ↔ sloMonitorExample.GetMonitorIds ≠ []) ∧
    ("groups", AttrVal.strList sloMonitorExample.GetGroups) ∈
      successWrites sloMonitorExample ∧
    "query" ∉ (successWrites sloMonitorExample).map Prod.fst :=
  (C3_type_branch (envOk [sloMonitorExample]) dExample
    { data := some [sloMonitorExample] } sloMonitorExample rfl rfl
    (fun _ _ => rfl)).2.1 rfl

/-- Claim C4: the output thresholds list has one entry per source threshold
in the same order; each entry copies the source's timeframe and target, and
its warning, target-display and warning-display components equal the source's
presence-flagged optional fields (present exactly when the source marks them
present). -/
theorem C4_thresholds_mapping (env : ProviderEnv) (d : ResourceData)
    (resp : SLOListResponse) (slo : ServiceLevelObjective)
    (h : env.listSLOs (buildListSLOsRequest d) = Except.ok resp)
    (hdata : resp.GetData = [slo]) (hok : ∀ k v, env.setOk k v = true) :
    dataSourceServiceLevelObjectiveRead env d =
      ({ writes := d.store.writes ++ successWrites slo, id := some slo.GetId }, none) ∧
    ("thresholds", AttrVal.thresholdList (sloThresholds slo)) ∈ successWrites slo ∧
    (sloThresholds slo).length = slo.GetThresholds.length ∧
    (∀ i, i < slo.GetThresholds.length →
      ((sloThresholds slo).getD i default).timeframe =
        (slo.GetThresholds.getD i default).GetTimeframe ∧
      ((sloThresholds slo).getD i default).target =
        (slo.GetThresholds.getD i default).GetTarget ∧
      ((sloThresholds slo).getD i default).warning =
        (slo.GetThresholds.getD i default).GetWarningOk ∧
      ((sloThresholds slo).getD i default).target_display =
        (slo.GetThresholds.getD i default).GetTargetDisplayOk ∧
      ((sloThresholds slo).getD i default).warning_display =
        (slo.GetThresholds.getD i default).GetWarningDisplayOk) := by
  have hlen : (sloThresholds slo).length = slo.GetThresholds.length := by
    simp [sloThresholds]
  have key : ∀ i, i < slo.GetThresholds.length →
      (sloThresholds slo).getD i default =
        thresholdOut (slo.GetThresholds.getD i default) := by
    intro i hi
    have hi' : i < (sloThresholds slo).length := hlen ▸ hi
    rw [List.getD_eq_getElem _ _ hi', List.getD_eq_getElem _ _ hi]
    simp [sloThresholds]
  refine ⟨read_success_eq env d resp slo h hdata hok, ?_, hlen, fun i hi => ?_⟩
  · simp [successWrites]
  · rw [key i hi]
    exact ⟨rfl, rfl, rfl, rfl, rfl⟩

theorem C4_witness :
    ((sloThresholds sloMetricExample).getD 0 default).timeframe =
      (sloMetricExample.GetThresholds.getD 0 default).GetTimeframe ∧
    ((sloThresholds sloMetricExample).getD 0 default).target =
      (sloMetricExample.GetThresholds.getD 0 default).GetTarget ∧
    ((sloThresholds sloMetricExample).getD 0 default).warning =
      (sloMetricExample.GetThresholds.getD 0 default).GetWarningOk ∧
    ((sloThresholds sloMetricExample).getD 0 default).target_display =
      (sloMetricExample.GetThresholds.getD 0 default).GetTargetDisplayOk ∧
    ((sloThresholds sloMetricExample).getD 0 default).warning_display =
      (sloMetricExample.GetThresholds.getD 0 default).GetWarningDisplayOk :=
  (C4_thresholds_mapping (envOk [sloMetricExample]) dExample
    { data := some [sloMetricExample] } sloMetricExample rfl rfl
    (fun _ _ => rfl)).2.2.2 0 (by decide)

/-- Claim C8: when the store rejects one of the field assignments, the read
returns that assignment's error at once: the writes performed are exactly
those strictly before the failing one, none of the remaining assignments
happen, and the identifier is never set. -/
theorem C8_set_error_aborts (env : ProviderEnv) (d : ResourceData)
    (resp : SLOListResponse) (slo : ServiceLevelObjective)
    (pre : List (String × AttrVal)) (k : String) (v : AttrVal)
    (post : List (String × AttrVal))
    (h : env.listSLOs (buildListSLOsRequest d) = Except.ok resp)
    (hdata : resp.GetData = [slo])
    (hplan : successWrites slo = pre ++ (k, v) :: post)
    (hpre : ∀ p ∈ pre, env.setOk p.1 p.2 = true)
    (hfail : env.setOk k v = false) :
    dataSourceServiceLevelObjectiveRead env d =
      ({ d.store with writes := d.store.writes ++ pre },
        some (ReadError.setError k)) := by
  rw [read_of_singleResult env d resp slo h hdata, assignSLOFields_eq_applyWrites,
    hplan, applyWrites_of_fail env d.store pre k v post hpre hfail, andThen_err]

theorem C8_witness :
    dataSourceServiceLevelObjectiveRead (envFailDescription [sloMonitorExample])
        dExample =
      ({ dExample.store with
          writes := dExample.store.writes ++ [("name", AttrVal.str "checkout latency")] },
        some (ReadError.setError "description")) :=
  C8_set_error_aborts (envFailDescription [sloMonitorExample]) dExample
    { data := some [sloMonitorExample] } sloMonitorExample
    [("name", AttrVal.str "checkout latency")] "description"
    (AttrVal.str "p99 latency")
    [("type", AttrVal.str "monitor"),
     ("tags", AttrVal.strList ["env:prod"]),
     ("thresholds", AttrVal.thresholdList
       [{ timeframe := "7d", target := 99, warning := none,
          target_display := none, warning_display := none }]),
     ("monitor_ids", AttrVal.intList [123, 456]),
     ("groups", AttrVal.strList ["env:prod"])]
    rfl rfl (by decide) (by decide) (by decide)

/-- Claim C10: in the non-monitor branch the query output is assigned with no
presence check: when the SLO's query sub-object is absent the read still
writes the single-element query list, with empty-string numerator and
denominator. -/
theorem C10_query_written_without_presence_check (env : ProviderEnv)
    (d : ResourceData) (resp : SLOListResponse) (slo : ServiceLevelObjective)
    (h : env.listSLOs (buildListSLOsRequest d) = Except.ok resp)
    (hdata : resp.GetData = [slo]) (hok : ∀ k v, env.setOk k v = true)
    (hq : slo.query = none) (hm : slo.GetType ≠ SLOTYPE_MONITOR) :
    dataSourceServiceLevelObjectiveRead env d =
      ({ writes := d.store.writes ++ successWrites slo, id := some slo.GetId }, none) ∧
    ("query", AttrVal.queryList [{ numerator := "", denominator := "" }]) ∈
      successWrites slo := by
  refine ⟨read_success_eq env d resp slo h hdata hok, ?_⟩
  simp [successWrites, hm, ServiceLevelObjective.GetQuery, hq,
    ServiceLevelObjectiveQuery.GetNumerator, ServiceLevelObjectiveQuery.GetDenominator]

theorem C10_witness :
    dataSourceServiceLevelObjectiveRead (envOk [sloMetricNoQueryExample]) dExample =
      ({ writes := dExample.store.writes ++ successWrites sloMetricNoQueryExample,
         id := some sloMetricNoQueryExample.GetId }, none) ∧
    ("query", AttrVal.queryList [{ numerator := "", denominator := "" }]) ∈
      successWrites sloMetricNoQueryExample :=
  C10_query_written_without_presence_check (envOk [sloMetricNoQueryExample]) dExample
    { data := some [sloMetricNoQueryExample] } sloMetricNoQueryExample rfl rfl
    (fun _ _ => rfl) rfl (by decide)

end DatadogSLO
